/-
Verification of the httpbin_sdk request-building and response-validation
logic (files httpbin_sdk/internal_utils.py, httpbin_sdk/response.py,
httpbin_sdk/client.py, httpbin_sdk/errors.py).

Python dictionaries are modelled as association lists (first binding wins on
lookup, as Python dicts hold at most one binding per key); Python's dynamic
values are modelled by the inductive type `PyValue`; functions that raise are
modelled with `Except`.  Mutation of caller-supplied dictionaries (needed for
the frame-effect analysis of `_build_req_args`) is modelled with an explicit
heap of dictionary cells.
-/
import Mathlib

set_option maxRecDepth 4000

namespace HttpbinSdk

/-- A Python runtime value, restricted to the shapes that flow through the
payload dictionaries of this SDK: `None`, strings, booleans and integers. -/
inductive PyValue where
  | none
  | str (s : String)
  | bool (b : Bool)
  | int (n : Int)
deriving DecidableEq, Repr

/-- Python truthiness of a `PyValue` (`if token:` style tests). -/
def truthy : PyValue → Bool
  | .none => false
  | .str s => s != ""
  | .bool b => b
  | .int n => n != 0

/-- Python `str.format` / f-string rendering of a `PyValue`. -/
def pyFormat : PyValue → String
  | .none => "None"
  | .str s => s
  | .bool b => if b then "True" else "False"
  | .int n => toString n

/-- The exceptions the modelled code can actually raise at runtime:
the SDK's own request error, plus the interpreter errors its slips produce —
`NameError` for reading a name that is never defined or imported, and
`TypeError` for calling a constructor with arguments it does not accept. -/
inductive PyExn where
  | httpBinRequestError (message : String)
  | nameError (name : String)
  | typeError (message : String)
deriving DecidableEq, Repr

/-- A Python dict with string keys, as an association list (first binding
wins; real Python dicts have at most one binding per key). -/
abbrev PyDict (α : Type) := List (String × α)

/-- A payload dictionary (`data`, `params`, `json`, `files`, `auth`). -/
abbrev PDict := PyDict PyValue

/-- A header dictionary (string keys to string values). -/
abbrev HDict := PyDict String

/-- Python `d[k]` / `k in d` lookup: the first binding for `k`, if any. -/
def dictLookup {α : Type} : PyDict α → String → Option α
  | [], _ => Option.none
  | (k, v) :: rest, key => if k = key then some v else dictLookup rest key

/-- Python `d[k] = v`: replace the first binding for `k`, or append one. -/
def dictSet {α : Type} : PyDict α → String → α → PyDict α
  | [], key, v => [(key, v)]
  | (k, w) :: rest, key, v =>
    if k = key then (k, v) :: rest else (k, w) :: dictSet rest key v

/-- Python `d.pop(k)` / `del d[k]`: remove the bindings for `k`. -/
def dictErase {α : Type} : PyDict α → String → PyDict α
  | [], _ => []
  | (k, w) :: rest, key =>
    if k = key then dictErase rest key else (k, w) :: dictErase rest key

/-- Python `target.update(src)`: set every binding of `src` in turn. -/
def dictUpdate {α : Type} (target src : PyDict α) : PyDict α :=
  src.foldl (fun t kv => dictSet t kv.1 kv.2) target

/-- Whether the keys of an association list are duplicate-free (true of any
list that models a real Python dict). -/
def keysNodup {α : Type} (d : PyDict α) : Prop :=
  (d.map Prod.fst).Nodup

/-- The package version string (`httpbin_sdk.__version__`). -/
def httpbin_version : String := "1.0.0"

/-- Stand-in for the interpreter version string built from
`sys.version_info` (environment-dependent). -/
def python_version_string : String := "Python/3.8.10"

/-- Stand-in for the OS info string built from `platform.system()` and
`platform.release()` (environment-dependent). -/
def system_info_string : String := "Linux/5.15"

/-- Execution model of internal_utils.get_user_agent: its body reads
`sys.version_info` (line 20) but the module never imports `sys`, so every
actual call raises `NameError` before producing a string. -/
def get_user_agent_exec : Except PyExn String :=
  .error (PyExn.nameError "sys")

/-- Value view of internal_utils.get_user_agent: the User-Agent string its
f-string templates describe, built from the package info, Python version and
OS version, with optional prefix and suffix (each prepended or appended only
when truthy).  The environment-dependent pieces are fixed stand-ins.  Actual
execution never reaches this value — see `get_user_agent_exec`. -/
def get_user_agent (pfx sfx : Option String) : String :=
  let client := "httpbin_client/" ++ httpbin_version
  let user_agent_string :=
    String.intercalate " " [python_version_string, client, system_info_string]
  let p := match pfx with
    | some s => if s != "" then s ++ " " else ""
    | Option.none => ""
  let s := match sfx with
    | some s => if s != "" then " " ++ s else ""
    | Option.none => ""
  p ++ user_agent_string ++ s

/-- internal_utils._get_headers (value view): constructs the final request
headers from a base Content-Type, a synthesized User-Agent, a bearer token,
client headers, request-specific headers, then JSON Content-Type forcing and
file-upload Content-Type removal, in exactly the source order.  When the
User-Agent branch is taken, actual execution raises inside get_user_agent
(see `get_user_agent_exec`); this view uses the string that call is written
to produce. -/
def _get_headers (headers : Option HDict) (token : PyValue)
    (has_json has_files : Bool) (request_specific_headers : Option HDict) :
    HDict :=
  let final_headers : HDict :=
    [("Content-Type", "application/x-www-form-urlencoded")]
  let final_headers :=
    if headers = Option.none ∨
        dictLookup (headers.getD []) "User-Agent" = Option.none then
      dictSet final_headers "User-Agent" (get_user_agent Option.none Option.none)
    else final_headers
  let final_headers :=
    if truthy token then
      dictUpdate final_headers [("Authorization", "Bearer " ++ pyFormat token)]
    else final_headers
  let hs := headers.getD []
  let final_headers := dictUpdate final_headers hs
  let final_headers :=
    match request_specific_headers with
    | some r => if r ≠ [] then dictUpdate final_headers r else final_headers
    | Option.none => final_headers
  let final_headers :=
    if has_json then
      dictUpdate final_headers
        [("Content-Type", "application/json;charset=utf-8")]
    else final_headers
  let final_headers :=
    if has_files then dictErase final_headers "Content-Type" else final_headers
  final_headers

/-- internal_utils._set_default_params: for each default parameter, insert it
into the target only when its key is not already present. -/
def _set_default_params (target default_params : PDict) : PDict :=
  default_params.foldl
    (fun t kv => if dictLookup t kv.1 = Option.none then dictSet t kv.1 kv.2 else t)
    target

/-- The dict comprehension dropping `None`-valued entries
(`d = \x7bk: v for k, v in d.items() if v is not None\x7d`). -/
def nullStrip : PDict → PDict
  | [] => []
  | (k, v) :: rest =>
    if v = PyValue.none then nullStrip rest else (k, v) :: nullStrip rest

/-- The inline-token extraction step of `_build_req_args`
(`if d is not None and "token" in d: token = d.pop("token")`), returning the
effective token and the possibly-modified dictionary. -/
def popTokenStep (token : PyValue) (d : Option PDict) : PyValue × Option PDict :=
  match d with
  | some p =>
    match dictLookup p "token" with
    | some v => (v, some (dictErase p "token"))
    | Option.none => (token, some p)
  | Option.none => (token, Option.none)

/-- errors.HttpBinRequestError: raised for a problem with the request being
submitted; carries only its message. -/
structure HttpBinRequestError where
  message : String
deriving DecidableEq, Repr

/-- The message of the JSON/verb incompatibility error in `_build_req_args`
(internal_utils.py line 100, verbatim). -/
def jsonPostErrorMessage : String :=
  "Json data can only be submitted as POST requests. GET requests should use the 'params' argument."

/-- The `req_args` dictionary assembled by `_build_req_args`.  The source's
`ssl` entry (line 134) reads an undefined name — evaluating it raises, so it
never holds a value; that raise is modelled by `_build_req_args_exec` and
the entry carries no field here. -/
structure ReqArgs where
  headers : HDict
  data : Option PDict
  files : Option PDict
  params : Option PDict
  json : Option PDict
  proxy : Option String
  auth : Option PDict
deriving DecidableEq, Repr

/-- internal_utils._build_req_args (value view of lines 97-133): checks the
JSON/verb compatibility, null-strips and default-merges the payloads,
extracts an inline token from params then json, and assembles the request
argument values those lines compute.  The in-place/copy distinction is
modelled separately by `_build_req_args_heap`, and the exceptions actual
execution raises while assembling `req_args` (undefined `ssl`, unimported
`sys`) by `_build_req_args_exec`. -/
def _build_req_args (token : PyValue) (http_verb : String)
    (files data params json : Option PDict) (default_params : PDict)
    (headers : Option HDict) (auth : Option PDict) (proxy : Option String) :
    Except HttpBinRequestError ReqArgs :=
  let has_json := json.isSome
  let has_files := files.isSome
  if has_json = true ∧ http_verb ≠ "POST" then
    .error ⟨jsonPostErrorMessage⟩
  else
    let data := data.map fun d => _set_default_params (nullStrip d) default_params
    let files := files.map fun d => nullStrip d
    let params := params.map fun d => _set_default_params (nullStrip d) default_params
    let json := json.map fun d => _set_default_params d default_params
    let tp := popTokenStep token params
    let tj := popTokenStep tp.1 json
    .ok
      { headers := _get_headers headers tj.1 has_json has_files headers
        data := data
        files := files
        params := tp.2
        json := tj.2
        proxy := proxy
        auth := auth }

set_option linter.unusedVariables false in
/-- internal_utils._build_req_args, exception behaviour of actual execution:
the verb check raises the RequestError first; past it, the dictionary
processing of lines 103-121 raises nothing (its value flow is
`_build_req_args`, its mutation flow `_build_req_args_heap`), but assembling
the `req_args` literal then always raises a `NameError` — building the
`headers` entry calls get_user_agent, whose body reads the never-imported
`sys`, whenever the supplied headers are absent or lack a `User-Agent` key,
and otherwise the `ssl` entry (line 134) reads the undefined name `ssl`.
No call that passes the verb check returns.  The parameters keep the source
signature even where the exception path never reads them. -/
def _build_req_args_exec (token : PyValue) (http_verb : String)
    (files data params json : Option PDict) (default_params : PDict)
    (headers : Option HDict) (auth : Option PDict) (proxy : Option String) :
    Except PyExn ReqArgs :=
  let has_json := json.isSome
  if has_json = true ∧ http_verb ≠ "POST" then
    .error (PyExn.httpBinRequestError jsonPostErrorMessage)
  else if headers = Option.none ∨
      dictLookup (headers.getD []) "User-Agent" = Option.none then
    .error (PyExn.nameError "sys")
  else
    .error (PyExn.nameError "ssl")

/-- The decoded body of a response: a parsed JSON mapping or raw bytes. -/
inductive RData where
  | dict (d : PDict)
  | bytes (b : List Nat)
deriving DecidableEq, Repr

/-- Python truthiness of the decoded body (`self.data`): a mapping is truthy
when non-empty, a bytes object when non-empty. -/
def RData.isTruthy : RData → Bool
  | .dict d => d != []
  | .bytes b => b != []

/-- Whether the decoded body is binary (`isinstance(self.data, bytes)`). -/
def RData.isBytes : RData → Bool
  | .dict _ => false
  | .bytes _ => true

/-- `self.data.get("ok", False)` for a mapping body. -/
def RData.getOk : RData → PyValue
  | .dict d =>
    match dictLookup d "ok" with
    | some v => v
    | Option.none => PyValue.bool false
  | .bytes _ => PyValue.bool false

/-- response.Response: the wrapped API response. -/
structure Response where
  api_url : String
  status_code : Int
  headers : Option HDict
  data : RData
deriving DecidableEq, Repr

/-- The message prepared on the failure branch of Response.validate
(response.py line 24), embedding the request URL. -/
def validateFailureMessage (r : Response) : String :=
  "The request to the HttpBin API failed. (url: " ++ r.api_url ++ ")"

/-- Python evaluation of `Exception(message=msg, response=self)`
(response.py line 25): `Exception` accepts no keyword arguments, so
constructing it raises a `TypeError`, and the prepared message and response
are both discarded. -/
def raiseExceptionKeywords (_msg : String) (_response : Response) : PyExn :=
  PyExn.typeError "Exception() takes no keyword arguments"

/-- response.Response.validate: succeeds (returning self) when the status
code is 200, the data is truthy, and the data is bytes or its `ok` key is
truthy; otherwise it prepares the URL-embedding failure message but the
`raise Exception(message=..., response=...)` itself fails, so what actually
propagates is the keyword-argument `TypeError`. -/
def Response.validate (r : Response) : Except PyExn Response :=
  if r.status_code = 200 ∧ r.data.isTruthy = true ∧
      (r.data.isBytes = true ∨ truthy r.data.getOk = true) then
    .ok r
  else
    .error (raiseExceptionKeywords (validateFailureMessage r) r)

/-- The header-merge step of BaseClient.api_call (client.py lines 86-87):
the per-call headers dict (or a fresh empty dict when falsy) updated with the
client-level headers. -/
def api_call_merged_headers (headers : Option HDict) (self_headers : HDict) :
    HDict :=
  let h := match headers with
    | some hs => hs
    | Option.none => []
  dictUpdate h self_headers

/-- Python `str.replace` of carriage returns by newlines, characterwise. -/
def replCR (c : Char) : Char := if c = '\r' then '\n' else c

/-- Whether a character is stripped by Python `str.strip()` (the ASCII
whitespace subset, which covers every character our proofs depend on). -/
def isPySpace (c : Char) : Bool :=
  c = ' ' || c = '\t' || c = '\n' || c = '\r' || c = '\x0b' || c = '\x0c'

/-- Python `s.split(sep)` for a one-character separator, over characters. -/
def splitOnChar (c : Char) : List Char → List (List Char)
  | [] => [[]]
  | x :: xs =>
    match splitOnChar c xs with
    | [] => [[]]
    | p :: ps => if x = c then [] :: p :: ps else (x :: p) :: ps

/-- Python `s.strip()` over characters. -/
def pyStrip (l : List Char) : List Char :=
  ((l.dropWhile isPySpace).reverse.dropWhile isPySpace).reverse

/-- The newline-collapsing step of `_build_unexpected_body_error_message`:
replace carriage returns with newlines, split on newlines, strip each line,
and join with the empty separator. -/
def collapseBody (l : List Char) : List Char :=
  ((splitOnChar '\n' (l.map replCR)).map pyStrip).flatten

/-- The body preview of `_build_unexpected_body_error_message`: the collapsed
body, truncated to 100 characters with a trailing ellipsis when longer. -/
def bodyForLogging (body : String) : List Char :=
  let collapsed := collapseBody body.toList
  if collapsed.length > 100 then collapsed.take 100 ++ "...".toList
  else collapsed

/-- internal_utils._build_unexpected_body_error_message: the error message
for a response body that is not valid JSON, embedding the collapsed and
truncated body preview. -/
def _build_unexpected_body_error_message (body : String) : String :=
  "Received a response in a non-JSON format: " ++ String.mk (bodyForLogging body)

/-- The raw body returned by the transport: absent, binary, or text. -/
inductive RawBody where
  | noBody
  | bytes (b : List Nat)
  | text (s : String)
deriving DecidableEq, Repr

/-- The raw transport response dictionary
(`\x7b"status": ..., "headers": ..., "body": ...\x7d`). -/
structure RawResp where
  status : Int
  headers : HDict
  body : RawBody
deriving DecidableEq, Repr

/-- Rendering of the raw response used when it is interpolated into an error
message (stand-in for Python `str(response)`). -/
def rawRespRepr (r : RawResp) : String :=
  "status: " ++ toString r.status

/-- errors.HttpBinApiError: carries the response, and a message formed from
the given message plus a rendering of the response. -/
structure HttpBinApiError where
  msg : String
  response : RawResp
deriving DecidableEq, Repr

/-- Construction of errors.HttpBinApiError from a message and a response
(`msg = f"..." ` in `HttpBinApiError.__init__`). -/
def mkHttpBinApiError (message : String) (response : RawResp) : HttpBinApiError :=
  { msg := message ++ ("\nThe server responded with: " ++ rawRespRepr response)
    response := response }

/-- The response-decoding step of BaseClient._urllib_api_call (client.py
lines 190-197): a missing body passes through, a binary body passes through
unchanged, a text body is parsed as JSON (parsing abstracted by the `parse`
argument standing for `json.loads`), and on parse failure an HttpBinApiError
with the unexpected-body message is raised. -/
def _urllib_api_call_decode (parse : String → Option PDict) (resp : RawResp) :
    Except HttpBinApiError (Option RData) :=
  match resp.body with
  | .noBody => .ok Option.none
  | .bytes b => .ok (some (RData.bytes b))
  | .text s =>
    match parse s with
    | some d => .ok (some (RData.dict d))
    | Option.none =>
      .error (mkHttpBinApiError (_build_unexpected_body_error_message s) resp)

/-- A heap of Python dict objects, used to model which dictionaries
`_build_req_args` mutates in place and which it copies. -/
structure Heap where
  cells : List PDict
deriving DecidableEq, Repr

/-- Dereference a dict cell (out-of-range reads give the empty dict). -/
def Heap.get (h : Heap) (r : Nat) : PDict :=
  (h.cells.get? r).getD []

/-- Overwrite a dict cell in place. -/
def Heap.heapSet (h : Heap) (r : Nat) (d : PDict) : Heap :=
  ⟨h.cells.set r d⟩

/-- Allocate a fresh dict cell, returning the new heap and the new
reference. -/
def Heap.alloc (h : Heap) (d : PDict) : Heap × Nat :=
  (⟨h.cells ++ [d]⟩, h.cells.length)

/-- One `d = \x7b...filtered...\x7d` rebinding step of `_build_req_args`:
when the reference is present, allocate a fresh cell holding the transformed
contents of the old cell. -/
def allocStep (h : Heap) (ref : Option Nat) (f : PDict → PDict) :
    Heap × Option Nat :=
  match ref with
  | some r =>
    let a := h.alloc (f (h.get r))
    (a.1, some a.2)
  | Option.none => (h, Option.none)

/-- The heap version of the inline-token extraction step: pop the `token`
key out of the referenced dict in place, if present. -/
def popTokenStepHeap (h : Heap) (token : PyValue) (ref : Option Nat) :
    Heap × PyValue :=
  match ref with
  | some r =>
    match dictLookup (h.get r) "token" with
    | some v => (h.heapSet r (dictErase (h.get r) "token"), v)
    | Option.none => (h, token)
  | Option.none => (h, token)

/-- The references held by the assembled `req_args` in the heap model,
together with the effective token passed to the header builder. -/
structure ReqArgRefs where
  data : Option Nat
  files : Option Nat
  params : Option Nat
  json : Option Nat
  token : PyValue
deriving DecidableEq, Repr

/-- internal_utils._build_req_args, dict-flow view (lines 97-121 of the
source): the same computation as `_build_req_args`, but over references to
dict objects in a heap, recording which dicts are rebuilt as fresh filtered
copies (`data`, `files`, `params`) and which are mutated in place (`json`). -/
def _build_req_args_heap (h : Heap) (token : PyValue) (http_verb : String)
    (files data params json : Option Nat) (default_params : PDict) :
    Except HttpBinRequestError (Heap × ReqArgRefs) :=
  if json.isSome = true ∧ http_verb ≠ "POST" then
    .error ⟨jsonPostErrorMessage⟩
  else
    let sd := allocStep h data
      (fun d => _set_default_params (nullStrip d) default_params)
    let sf := allocStep sd.1 files (fun d => nullStrip d)
    let sp := allocStep sf.1 params
      (fun d => _set_default_params (nullStrip d) default_params)
    let h3 :=
      match json with
      | some r => sp.1.heapSet r (_set_default_params (sp.1.get r) default_params)
      | Option.none => sp.1
    let q1 := popTokenStepHeap h3 token sp.2
    let q2 := popTokenStepHeap q1.1 q1.2 json
    .ok (q2.1,
      { data := sd.2
        files := sf.2
        params := sp.2
        json := json
        token := q2.2 })

/-- The contents of a dict after the `token` key has been popped out when
present (used to state what `_build_req_args` leaves in a payload dict). -/
def popTokenDict (d : PDict) : PDict :=
  match dictLookup d "token" with
  | some _ => dictErase d "token"
  | Option.none => d

/-- Whether an `Except` result is a success. -/
def exceptOk {ε α : Type} : Except ε α → Bool
  | .ok _ => true
  | .error _ => false

/-- The request arguments of a successful `_build_req_args` result. -/
def reqArgsOf : Except HttpBinRequestError ReqArgs → ReqArgs
  | .ok a => a
  | .error _ =>
    { headers := [], data := Option.none, files := Option.none
      params := Option.none, json := Option.none
      proxy := Option.none, auth := Option.none }

/-- The heap component of a successful `_build_req_args_heap` result (the
input heap is irrelevant for failures). -/
def heapOf : Except HttpBinRequestError (Heap × ReqArgRefs) → Heap
  | .ok p => p.1
  | .error _ => ⟨[]⟩

/-- The reference component of a successful `_build_req_args_heap` result. -/
def argsOf : Except HttpBinRequestError (Heap × ReqArgRefs) → ReqArgRefs
  | .ok p => p.2
  | .error _ =>
    { data := Option.none, files := Option.none, params := Option.none
      json := Option.none, token := PyValue.none }

/-- A concrete four-cell heap (data, files, params, json dicts of a caller)
used to exhibit the copy/in-place behaviour of `_build_req_args_heap`. -/
def c10Heap : Heap :=
  ⟨[[("a", PyValue.str "1"), ("n", PyValue.none)],
    [("f", PyValue.str "2")],
    [("token", PyValue.str "T"), ("q", PyValue.str "3")],
    [("token", PyValue.str "J")]]⟩

/-! Shared lemmas about the dictionary operations. -/

theorem dictLookup_set_self {α : Type} (d : PyDict α) (k : String) (v : α) :
    dictLookup (dictSet d k v) k = some v := by
  induction d with
  | nil => simp [dictSet, dictLookup]
  | cons kv rest ih =>
    obtain ⟨k0, w⟩ := kv
    by_cases h : k0 = k
    · simp [dictSet, h, dictLookup]
    · simp [dictSet, h, dictLookup, ih]

theorem dictLookup_set_ne {α : Type} (d : PyDict α) (k k' : String) (v : α)
    (h : k ≠ k') : dictLookup (dictSet d k v) k' = dictLookup d k' := by
  induction d with
  | nil => simp [dictSet, dictLookup, h]
  | cons kv rest ih =>
    obtain ⟨k0, w⟩ := kv
    by_cases h0 : k0 = k
    · subst h0
      simp [dictSet, dictLookup, h]
    · simp [dictSet, h0, dictLookup, ih]

theorem dictLookup_erase_self {α : Type} (d : PyDict α) (k : String) :
    dictLookup (dictErase d k) k = Option.none := by
  induction d with
  | nil => simp [dictErase, dictLookup]
  | cons kv rest ih =>
    obtain ⟨k0, w⟩ := kv
    by_cases h : k0 = k
    · simp [dictErase, h, ih]
    · simp [dictErase, h, dictLookup, ih]

theorem dictLookup_erase_ne {α : Type} (d : PyDict α) (k k' : String)
    (h : k ≠ k') : dictLookup (dictErase d k) k' = dictLookup d k' := by
  induction d with
  | nil => simp [dictErase, dictLookup]
  | cons kv rest ih =>
    obtain ⟨k0, w⟩ := kv
    by_cases h0 : k0 = k
    · subst h0
      simp [dictErase, dictLookup, h, ih]
    · simp [dictErase, h0, dictLookup, ih]

theorem dictLookup_eq_none_of_not_mem {α : Type} (d : PyDict α) (k : String)
    (h : k ∉ d.map Prod.fst) : dictLookup d k = Option.none := by
  induction d with
  | nil => simp [dictLookup]
  | cons kv rest ih =>
    obtain ⟨k0, w⟩ := kv
    simp only [List.map_cons, List.mem_cons, not_or] at h
    have hk : k0 ≠ k := fun hh => h.1 hh.symm
    simp [dictLookup, hk, ih h.2]

theorem dictLookup_update_of_none {α : Type} (t s : PyDict α) (k : String)
    (h : dictLookup s k = Option.none) :
    dictLookup (dictUpdate t s) k = dictLookup t k := by
  induction s generalizing t with
  | nil => simp [dictUpdate]
  | cons kv s' ih =>
    obtain ⟨k0, w⟩ := kv
    simp only [dictLookup] at h
    by_cases h0 : k0 = k
    · simp [h0] at h
    · simp only [h0, if_false] at h
      show dictLookup (dictUpdate (dictSet t k0 w) s') k = dictLookup t k
      rw [ih (dictSet t k0 w) h, dictLookup_set_ne t k0 k w h0]

theorem dictLookup_update_of_some {α : Type} (t s : PyDict α) (k : String)
    (v : α) (hnd : keysNodup s) (h : dictLookup s k = some v) :
    dictLookup (dictUpdate t s) k = some v := by
  induction s generalizing t with
  | nil => simp [dictLookup] at h
  | cons kv s' ih =>
    obtain ⟨k0, w⟩ := kv
    simp only [keysNodup, List.map_cons, List.nodup_cons] at hnd
    simp only [dictLookup] at h
    by_cases h0 : k0 = k
    · subst h0
      simp only [if_true] at h
      have hwv : w = v := by injection h
      subst hwv
      show dictLookup (dictUpdate (dictSet t k0 w) s') k0 = some w
      have hs' : dictLookup s' k0 = Option.none :=
        dictLookup_eq_none_of_not_mem s' k0 hnd.1
      rw [dictLookup_update_of_none (dictSet t k0 w) s' k0 hs',
        dictLookup_set_self]
    · simp only [h0, if_false] at h
      exact ih (dictSet t k0 w) hnd.2 h

theorem sdp_lookup_of_some (D P : PDict) (k : String) (v : PyValue)
    (h : dictLookup P k = some v) :
    dictLookup (_set_default_params P D) k = some v := by
  induction D generalizing P with
  | nil => simpa [_set_default_params] using h
  | cons kv D' ih =>
    obtain ⟨k0, w⟩ := kv
    show dictLookup (_set_default_params
      (if dictLookup P k0 = Option.none then dictSet P k0 w else P) D') k = some v
    by_cases hc : dictLookup P k0 = Option.none
    · have hk : k0 ≠ k := by
        intro hh
        subst hh
        rw [h] at hc
        exact Option.some_ne_none v hc
      rw [if_pos hc]
      exact ih (dictSet P k0 w) (by rw [dictLookup_set_ne P k0 k w hk]; exact h)
    · rw [if_neg hc]
      exact ih P h

theorem sdp_lookup_of_none (D P : PDict) (k : String)
    (h : dictLookup P k = Option.none) :
    dictLookup (_set_default_params P D) k = dictLookup D k := by
  induction D generalizing P with
  | nil => simpa [_set_default_params, dictLookup] using h
  | cons kv D' ih =>
    obtain ⟨k0, w⟩ := kv
    show dictLookup (_set_default_params
      (if dictLookup P k0 = Option.none then dictSet P k0 w else P) D') k =
      dictLookup ((k0, w) :: D') k
    by_cases hk : k0 = k
    · subst hk
      rw [if_pos h]
      have : dictLookup (dictSet P k0 w) k0 = some w := dictLookup_set_self P k0 w
      rw [sdp_lookup_of_some D' (dictSet P k0 w) k0 w this]
      simp [dictLookup]
    · simp only [dictLookup, hk, if_false]
      by_cases hc : dictLookup P k0 = Option.none
      · rw [if_pos hc]
        exact ih (dictSet P k0 w) (by rw [dictLookup_set_ne P k0 k w hk]; exact h)
      · rw [if_neg hc]
        exact ih P h

theorem nullStrip_no_none (d : PDict) (k : String) :
    dictLookup (nullStrip d) k ≠ some PyValue.none := by
  induction d with
  | nil => simp [nullStrip, dictLookup]
  | cons kv rest ih =>
    obtain ⟨k0, v⟩ := kv
    by_cases hv : v = PyValue.none
    · simpa [nullStrip, hv] using ih
    · by_cases hk : k0 = k
      · simp [nullStrip, hv, dictLookup, hk]
      · simpa [nullStrip, hv, dictLookup, hk] using ih

theorem nullStrip_lookup_of_some (d : PDict) (k : String) (v : PyValue)
    (hv : v ≠ PyValue.none) (h : dictLookup d k = some v) :
    dictLookup (nullStrip d) k = some v := by
  induction d with
  | nil => simp [dictLookup] at h
  | cons kv rest ih =>
    obtain ⟨k0, w⟩ := kv
    simp only [dictLookup] at h
    by_cases hk : k0 = k
    · subst hk
      simp only [if_true] at h
      cases h
      simp [nullStrip, hv, dictLookup]
    · simp only [hk, if_false] at h
      by_cases hw : w = PyValue.none
      · simpa [nullStrip, hw] using ih h
      · simpa [nullStrip, hw, dictLookup, hk] using ih h

theorem nullStrip_lookup_of_none (d : PDict) (k : String)
    (h : dictLookup d k = Option.none) :
    dictLookup (nullStrip d) k = Option.none := by
  induction d with
  | nil => simp [nullStrip, dictLookup]
  | cons kv rest ih =>
    obtain ⟨k0, w⟩ := kv
    simp only [dictLookup] at h
    by_cases hk : k0 = k
    · simp [hk] at h
    · simp only [hk, if_false] at h
      by_cases hw : w = PyValue.none
      · simpa [nullStrip, hw] using ih h
      · simpa [nullStrip, hw, dictLookup, hk] using ih h

/-! Shared lemmas about the heap of dict cells. -/

theorem list_get?_set_self {α : Type} (l : List α) (i : Nat) (a : α)
    (h : i < l.length) : (l.set i a).get? i = some a := by
  induction l generalizing i with
  | nil => simp at h
  | cons x xs ih =>
    cases i with
    | zero => simp [List.set]
    | succ j =>
      simp only [List.set, List.get?]
      exact ih j (by simpa using h)

theorem list_get?_set_ne {α : Type} (l : List α) (i j : Nat) (a : α)
    (h : i ≠ j) : (l.set i a).get? j = l.get? j := by
  induction l generalizing i j with
  | nil => simp [List.set]
  | cons x xs ih =>
    cases i with
    | zero =>
      cases j with
      | zero => exact absurd rfl h
      | succ j' => simp [List.set, List.get?]
    | succ i' =>
      cases j with
      | zero => simp [List.set, List.get?]
      | succ j' =>
        simp only [List.set, List.get?]
        exact ih i' j' (fun hh => h (by rw [hh]))

theorem list_get?_concat_self {α : Type} (l : List α) (a : α) :
    (l ++ [a]).get? l.length = some a := by
  induction l with
  | nil => rfl
  | cons x xs ih => simp [ih]

theorem list_get?_append_lt {α : Type} (l : List α) (a : α) (i : Nat)
    (h : i < l.length) : (l ++ [a]).get? i = l.get? i := by
  induction l generalizing i with
  | nil => simp at h
  | cons x xs ih =>
    cases i with
    | zero => rfl
    | succ j =>
      simp only [List.cons_append, List.get?]
      exact ih j (by simpa using h)

theorem Heap.get_alloc_self (h : Heap) (d : PDict) :
    (h.alloc d).1.get h.cells.length = d := by
  simp only [Heap.alloc, Heap.get]
  rw [list_get?_concat_self]
  rfl

theorem Heap.get_alloc_lt (h : Heap) (d : PDict) (r : Nat)
    (hr : r < h.cells.length) : (h.alloc d).1.get r = h.get r := by
  simp only [Heap.alloc, Heap.get]
  rw [list_get?_append_lt h.cells d r hr]

theorem Heap.get_heapSet_self (h : Heap) (r : Nat) (d : PDict)
    (hr : r < h.cells.length) : (h.heapSet r d).get r = d := by
  simp only [Heap.heapSet, Heap.get]
  rw [list_get?_set_self h.cells r d hr]
  rfl

theorem Heap.get_heapSet_ne (h : Heap) (r r' : Nat) (d : PDict)
    (hne : r ≠ r') : (h.heapSet r d).get r' = h.get r' := by
  simp only [Heap.heapSet, Heap.get]
  rw [list_get?_set_ne h.cells r r' d hne]

theorem Heap.length_alloc (h : Heap) (d : PDict) :
    (h.alloc d).1.cells.length = h.cells.length + 1 := by
  simp [Heap.alloc]

theorem Heap.length_heapSet (h : Heap) (r : Nat) (d : PDict) :
    (h.heapSet r d).cells.length = h.cells.length := by
  simp [Heap.heapSet]

/-! Shared lemmas about the body-preview computation. -/

theorem splitOnChar_ne_nil (c : Char) (l : List Char) :
    splitOnChar c l ≠ [] := by
  cases l with
  | nil => simp [splitOnChar]
  | cons x xs =>
    simp only [splitOnChar]
    cases hs : splitOnChar c xs with
    | nil => simp
    | cons p ps =>
      by_cases hx : x = c
      · simp [hx]
      · simp [hx]

theorem mem_splitOnChar (c : Char) (l : List Char) :
    ∀ p ∈ splitOnChar c l, ∀ x ∈ p, x ∈ l ∧ x ≠ c := by
  induction l with
  | nil =>
    intro p hp x hx
    simp [splitOnChar] at hp
    subst hp
    simp at hx
  | cons y ys ih =>
    intro p hp x hx
    cases hs : splitOnChar c ys with
    | nil => exact absurd hs (splitOnChar_ne_nil c ys)
    | cons p0 ps =>
      simp only [splitOnChar, hs] at hp
      by_cases hy : y = c
      · rw [if_pos hy] at hp
        rcases List.mem_cons.mp hp with hp | hp
        · subst hp
          simp at hx
        · have := ih p (by rw [hs]; exact hp) x hx
          exact ⟨List.mem_cons_of_mem y this.1, this.2⟩
      · rw [if_neg hy] at hp
        rcases List.mem_cons.mp hp with hp | hp
        · subst hp
          rcases List.mem_cons.mp hx with hx | hx
          · subst hx
            exact ⟨List.mem_cons_self x ys, hy⟩
          · have := ih p0 (by rw [hs]; exact List.mem_cons_self p0 ps) x hx
            exact ⟨List.mem_cons_of_mem y this.1, this.2⟩
        · have := ih p (by rw [hs]; exact List.mem_cons_of_mem p0 hp) x hx
          exact ⟨List.mem_cons_of_mem y this.1, this.2⟩

theorem mem_of_mem_dropWhile {α : Type} (p : α → Bool) (l : List α) (x : α)
    (h : x ∈ l.dropWhile p) : x ∈ l := by
  induction l with
  | nil => simp [List.dropWhile] at h
  | cons y ys ih =>
    simp only [List.dropWhile] at h
    by_cases hy : p y = true
    · simp only [hy] at h
      exact List.mem_cons_of_mem y (ih h)
    · simp only [Bool.not_eq_true] at hy
      simp only [hy] at h
      exact h

theorem mem_of_mem_pyStrip (l : List Char) (x : Char) (h : x ∈ pyStrip l) :
    x ∈ l := by
  simp only [pyStrip, List.mem_reverse] at h
  have h1 := mem_of_mem_dropWhile isPySpace (l.dropWhile isPySpace).reverse x h
  rw [List.mem_reverse] at h1
  exact mem_of_mem_dropWhile isPySpace l x h1

theorem mem_collapseBody (l : List Char) (x : Char) (h : x ∈ collapseBody l) :
    x ≠ '\n' ∧ x ≠ '\r' := by
  simp only [collapseBody, List.mem_flatten, List.mem_map] at h
  obtain ⟨piece', ⟨piece, hpiece, hmap⟩, hx⟩ := h
  subst hmap
  have hx' := mem_of_mem_pyStrip piece x hx
  have hsplit := mem_splitOnChar '\n' (l.map replCR) piece hpiece x hx'
  refine ⟨hsplit.2, ?_⟩
  rcases List.mem_map.mp hsplit.1 with ⟨y, _, hy⟩
  subst hy
  simp only [replCR]
  by_cases hyr : y = '\r'
  · simp [hyr]
  · simp [hyr]

theorem mem_bodyForLogging (body : String) (x : Char)
    (h : x ∈ bodyForLogging body) : x ≠ '\n' ∧ x ≠ '\r' := by
  simp only [bodyForLogging] at h
  by_cases hlen : (collapseBody body.toList).length > 100
  · simp only [hlen, if_true, List.mem_append] at h
    rcases h with h | h
    · exact mem_collapseBody body.toList x
        (List.Sublist.mem h (List.take_sublist 100 (collapseBody body.toList)))
    · have : x = '.' := by
        simpa using h
      subst this
      constructor <;> decide
  · simp only [hlen, if_false] at h
    exact mem_collapseBody body.toList x h

theorem bodyForLogging_length (body : String) :
    (bodyForLogging body).length ≤ 100 ∨
      ((bodyForLogging body).length = 103 ∧
        (bodyForLogging body).drop 100 = "...".toList) := by
  simp only [bodyForLogging]
  by_cases hlen : (collapseBody body.toList).length > 100
  · right
    simp only [hlen, if_true]
    have htake : ((collapseBody body.toList).take 100).length = 100 := by
      rw [List.length_take]
      omega
    constructor
    · rw [List.length_append, htake]
      rfl
    · set A := (collapseBody body.toList).take 100 with hA
      rw [← htake]
      exact List.drop_left A _
  · left
    simp only [hlen, if_false]
    omega

/-- The shape of a successful `_build_req_args` run: when the JSON/verb check
passes, the result is the assembled request arguments. -/
theorem build_req_args_eq_ok (token : PyValue) (http_verb : String)
    (files data params json : Option PDict) (default_params : PDict)
    (headers : Option HDict) (auth : Option PDict) (proxy : Option String)
    (h : ¬(json.isSome = true ∧ http_verb ≠ "POST")) :
    _build_req_args token http_verb files data params json default_params
        headers auth proxy =
      .ok
        { headers := _get_headers headers
            (popTokenStep
              (popTokenStep token
                (params.map fun d =>
                  _set_default_params (nullStrip d) default_params)).1
              (json.map fun d => _set_default_params d default_params)).1
            json.isSome files.isSome headers
          data := data.map fun d =>
            _set_default_params (nullStrip d) default_params
          files := files.map fun d => nullStrip d
          params := (popTokenStep token
            (params.map fun d =>
              _set_default_params (nullStrip d) default_params)).2
          json := (popTokenStep
            (popTokenStep token
              (params.map fun d =>
                _set_default_params (nullStrip d) default_params)).1
            (json.map fun d => _set_default_params d default_params)).2
          proxy := proxy
          auth := auth } := by
  simp only [_build_req_args, if_neg h]

/-- C1: the first half of the claim holds — a JSON payload with a non-POST
verb makes `_build_req_args` fail immediately with the RequestError and its
exact source message — but the second half is false of the code: every
verb/body combination that passes the check raises a `NameError` while
assembling `req_args` (`sys` is never imported, `ssl` is undefined), so no
such call returns. -/
theorem c1_verb_check_and_name_error (token : PyValue) (http_verb : String)
    (files data params json : Option PDict) (default_params : PDict)
    (headers : Option HDict) (auth : Option PDict) (proxy : Option String) :
    (json.isSome = true ∧ http_verb ≠ "POST" →
      _build_req_args_exec token http_verb files data params json
          default_params headers auth proxy =
        .error (PyExn.httpBinRequestError jsonPostErrorMessage)) ∧
    (¬(json.isSome = true ∧ http_verb ≠ "POST") →
      exceptOk (_build_req_args_exec token http_verb files data params json
        default_params headers auth proxy) = false ∧
      (_build_req_args_exec token http_verb files data params json
          default_params headers auth proxy =
        .error (PyExn.nameError "sys") ∨
       _build_req_args_exec token http_verb files data params json
          default_params headers auth proxy =
        .error (PyExn.nameError "ssl"))) := by
  constructor
  · intro h
    simp only [_build_req_args_exec, if_pos h]
  · intro h
    simp only [_build_req_args_exec, if_neg h]
    by_cases hua : headers = Option.none ∨
        dictLookup (headers.getD []) "User-Agent" = Option.none
    · rw [if_pos hua]
      exact ⟨rfl, Or.inl rfl⟩
    · rw [if_neg hua]
      exact ⟨rfl, Or.inr rfl⟩

/-- Witness for C1: a GET call with a JSON payload raises the RequestError;
a POST call with no supplied headers raises the `sys` NameError; a POST call
whose headers carry a User-Agent raises the `ssl` NameError. -/
theorem c1_verb_check_and_name_error_witness :
    (((some [("a", PyValue.str "1")] : Option PDict).isSome = true ∧
        "GET" ≠ "POST") ∧
      _build_req_args_exec PyValue.none "GET" Option.none Option.none
          Option.none (some [("a", PyValue.str "1")]) [] Option.none
          Option.none Option.none =
        .error (PyExn.httpBinRequestError jsonPostErrorMessage)) ∧
    (¬((Option.none : Option PDict).isSome = true ∧ "POST" ≠ "POST") ∧
      (exceptOk (_build_req_args_exec PyValue.none "POST" Option.none
          Option.none Option.none Option.none [] Option.none Option.none
          Option.none) = false ∧
       (_build_req_args_exec PyValue.none "POST" Option.none Option.none
          Option.none Option.none [] Option.none Option.none Option.none =
          .error (PyExn.nameError "sys") ∨
        _build_req_args_exec PyValue.none "POST" Option.none Option.none
          Option.none Option.none [] Option.none Option.none Option.none =
          .error (PyExn.nameError "ssl")))) ∧
    (¬((Option.none : Option PDict).isSome = true ∧ "POST" ≠ "POST") ∧
      (exceptOk (_build_req_args_exec PyValue.none "POST" Option.none
          Option.none Option.none Option.none []
          (some [("User-Agent", "ua")]) Option.none Option.none) = false ∧
       (_build_req_args_exec PyValue.none "POST" Option.none Option.none
          Option.none Option.none [] (some [("User-Agent", "ua")])
          Option.none Option.none = .error (PyExn.nameError "sys") ∨
        _build_req_args_exec PyValue.none "POST" Option.none Option.none
          Option.none Option.none [] (some [("User-Agent", "ua")])
          Option.none Option.none = .error (PyExn.nameError "ssl")))) :=
  ⟨⟨⟨rfl, by decide⟩,
    (c1_verb_check_and_name_error PyValue.none "GET" Option.none Option.none
      Option.none (some [("a", PyValue.str "1")]) [] Option.none Option.none
      Option.none).1 ⟨rfl, by decide⟩⟩,
   ⟨by decide,
    (c1_verb_check_and_name_error PyValue.none "POST" Option.none Option.none
      Option.none Option.none [] Option.none Option.none Option.none).2
      (by decide)⟩,
   ⟨by decide,
    (c1_verb_check_and_name_error PyValue.none "POST" Option.none Option.none
      Option.none Option.none [] (some [("User-Agent", "ua")]) Option.none
      Option.none).2 (by decide)⟩⟩

/-- C2 counterexample: a binary body that is empty, with status 200, does
NOT validate, and the exception that actually escapes is the bare
keyword-argument TypeError — refuting both the clause that a binary body
with status 200 always validates regardless of its content and the clause
that validation failure raises an error embedding the request URL and the
full response. -/
theorem c2_counterexample :
    Response.validate ⟨"u", 200, Option.none, RData.bytes []⟩ =
      .error (PyExn.typeError "Exception() takes no keyword arguments") := rfl

/-- C2 (amended): `Response.validate` succeeds, returning the response,
exactly when the status code is 200 and the data is a non-empty bytes object
or a non-empty mapping whose `ok` key (defaulting to false) is truthy; a
NON-EMPTY binary body with status 200 always validates; on failure the code
prepares a URL-embedding message but the raise itself fails, so every
failure propagates the same keyword-argument TypeError, carrying neither the
URL nor the response. -/
theorem c2_validate_characterization (r : Response) :
    (Response.validate r = .ok r ↔
      (r.status_code = 200 ∧
        ((∃ b, r.data = RData.bytes b ∧ b ≠ []) ∨
         (∃ d, r.data = RData.dict d ∧ d ≠ [] ∧
            truthy (RData.getOk (RData.dict d)) = true)))) ∧
    (∀ b, r.data = RData.bytes b → b ≠ [] → r.status_code = 200 →
      Response.validate r = .ok r) ∧
    (∀ e, Response.validate r = .error e →
      e = PyExn.typeError "Exception() takes no keyword arguments") := by
  obtain ⟨url, code, hdrs, rdata⟩ := r
  refine ⟨?_, ?_, ?_⟩
  · simp only [Response.validate]
    by_cases hc : code = 200 ∧ RData.isTruthy rdata = true ∧
        (RData.isBytes rdata = true ∨ truthy (RData.getOk rdata) = true)
    · rw [if_pos hc]
      apply iff_of_true rfl
      obtain ⟨h200, htr, hdis⟩ := hc
      refine ⟨h200, ?_⟩
      cases rdata with
      | bytes b =>
        exact Or.inl ⟨b, rfl, by simpa [RData.isTruthy] using htr⟩
      | dict d =>
        refine Or.inr ⟨d, rfl, by simpa [RData.isTruthy] using htr, ?_⟩
        rcases hdis with hdis | hdis
        · simp [RData.isBytes] at hdis
        · exact hdis
    · rw [if_neg hc]
      apply iff_of_false
      · intro h
        exact Except.noConfusion h
      · intro hrhs
        apply hc
        obtain ⟨h200, hd⟩ := hrhs
        rcases hd with ⟨b, hb, hbne⟩ | ⟨d, hd, hdne, hok⟩
        · subst hb
          exact ⟨h200, by simpa [RData.isTruthy] using hbne, Or.inl rfl⟩
        · subst hd
          exact ⟨h200, by simpa [RData.isTruthy] using hdne, Or.inr hok⟩
  · intro b hb hbne h200
    subst hb
    simp only [Response.validate]
    rw [if_pos ⟨h200, by simpa [RData.isTruthy] using hbne, Or.inl rfl⟩]
  · intro e he
    simp only [Response.validate] at he
    by_cases hc : code = 200 ∧ RData.isTruthy rdata = true ∧
        (RData.isBytes rdata = true ∨ truthy (RData.getOk rdata) = true)
    · rw [if_pos hc] at he
      exact Except.noConfusion he
    · rw [if_neg hc] at he
      injection he with he
      rw [← he]
      rfl

/-- Witness for C2 (amended): a non-empty binary body with status 200
validates, and a failing response propagates the keyword-argument
TypeError. -/
theorem c2_validate_characterization_witness :
    (Response.validate ⟨"u", 200, Option.none, RData.bytes [1]⟩ =
      .ok ⟨"u", 200, Option.none, RData.bytes [1]⟩) ∧
    (PyExn.typeError "Exception() takes no keyword arguments" =
      PyExn.typeError "Exception() takes no keyword arguments") :=
  ⟨(c2_validate_characterization ⟨"u", 200, Option.none, RData.bytes [1]⟩).2.1
      [1] rfl (by decide) rfl,
   (c2_validate_characterization ⟨"v", 500, Option.none, RData.dict []⟩).2.2
      (PyExn.typeError "Exception() takes no keyword arguments") rfl⟩

/-- The token-extraction step keeps the dictionary it returns, except for
the `token` key. -/
theorem popTokenStep_preserves (token : PyValue) (q : PDict) (k : String)
    (hk : k ≠ "token") :
    ∃ p', (popTokenStep token (some q)).2 = some p' ∧
      dictLookup p' k = dictLookup q k := by
  cases hl : dictLookup q "token" with
  | none => exact ⟨q, by simp [popTokenStep, hl], rfl⟩
  | some w =>
    exact ⟨dictErase q "token", by simp [popTokenStep, hl],
      dictLookup_erase_ne q "token" k (fun hh => hk hh.symm)⟩

/-- A successful `_build_req_args` run passed the JSON/verb check. -/
theorem build_req_args_ok_check (token : PyValue) (http_verb : String)
    (files data params json : Option PDict) (default_params : PDict)
    (headers : Option HDict) (auth : Option PDict) (proxy : Option String)
    (args : ReqArgs)
    (hok : _build_req_args token http_verb files data params json
      default_params headers auth proxy = .ok args) :
    ¬(json.isSome = true ∧ http_verb ≠ "POST") := by
  intro hc
  rw [show _build_req_args token http_verb files data params json
      default_params headers auth proxy = .error ⟨jsonPostErrorMessage⟩ by
    simp only [_build_req_args, if_pos hc]] at hok
  exact Except.noConfusion hok

/-- C3: the default-parameter merge inserts a default only when its key is
absent, never overwriting an existing entry, and on a successful
`_build_req_args` run an explicit entry of each of the form-data, params and
JSON payloads survives the merge unchanged. -/
theorem c3_defaults_never_overwrite :
    (∀ (D P : PDict) (k : String) (v : PyValue),
      dictLookup P k = some v →
      dictLookup (_set_default_params P D) k = some v) ∧
    (∀ (D P : PDict) (k : String),
      dictLookup P k = Option.none →
      dictLookup (_set_default_params P D) k = dictLookup D k) ∧
    (∀ (token : PyValue) (http_verb : String)
      (files data params json : Option PDict) (D : PDict)
      (headers : Option HDict) (auth : Option PDict) (proxy : Option String)
      (args : ReqArgs) (k : String) (v : PyValue),
      _build_req_args token http_verb files data params json D headers auth
          proxy = .ok args →
      k ≠ "token" → v ≠ PyValue.none →
      ((∀ d, data = some d → dictLookup d k = some v →
          ∃ d', args.data = some d' ∧ dictLookup d' k = some v) ∧
       (∀ p, params = some p → dictLookup p k = some v →
          ∃ p', args.params = some p' ∧ dictLookup p' k = some v) ∧
       (∀ j, json = some j → dictLookup j k = some v →
          ∃ j', args.json = some j' ∧ dictLookup j' k = some v))) := by
  refine ⟨sdp_lookup_of_some, sdp_lookup_of_none, ?_⟩
  intro token http_verb files data params json D headers auth proxy args k v
    hok hk hv
  have hcheck := build_req_args_ok_check token http_verb files data params
    json D headers auth proxy args hok
  rw [build_req_args_eq_ok token http_verb files data params json D headers
    auth proxy hcheck] at hok
  injection hok with hok
  subst hok
  refine ⟨?_, ?_, ?_⟩
  · intro d hd hlk
    subst hd
    exact ⟨_, rfl,
      sdp_lookup_of_some D _ k v (nullStrip_lookup_of_some d k v hv hlk)⟩
  · intro p hp hlk
    subst hp
    obtain ⟨p', hp', hlk'⟩ := popTokenStep_preserves token
      (_set_default_params (nullStrip p) D) k hk
    refine ⟨p', hp', ?_⟩
    rw [hlk']
    exact sdp_lookup_of_some D _ k v (nullStrip_lookup_of_some p k v hv hlk)
  · intro j hj hlk
    subst hj
    obtain ⟨j', hj', hlk'⟩ := popTokenStep_preserves
      (popTokenStep token
        (params.map fun d => _set_default_params (nullStrip d) D)).1
      (_set_default_params j D) k hk
    refine ⟨j', hj', ?_⟩
    rw [hlk']
    exact sdp_lookup_of_some D j k v hlk

/-- Witness for C3: a present key keeps its explicit value under the merge,
an absent key receives the default, and an explicit entry of the JSON
payload survives a concrete `_build_req_args` run. -/
theorem c3_defaults_never_overwrite_witness :
    (dictLookup
      (_set_default_params [("a", PyValue.str "p")] [("a", PyValue.str "d")])
      "a" = some (PyValue.str "p")) ∧
    (dictLookup (_set_default_params [] [("a", PyValue.str "d")]) "a" =
      dictLookup [("a", PyValue.str "d")] "a") ∧
    (∃ j',
      (reqArgsOf (_build_req_args PyValue.none "POST" Option.none
        (some [("x", PyValue.str "1")]) (some [("x", PyValue.str "1")])
        (some [("x", PyValue.str "1")]) [("x", PyValue.str "d")] Option.none
        Option.none Option.none)).json = some j' ∧
      dictLookup j' "x" = some (PyValue.str "1")) :=
  ⟨c3_defaults_never_overwrite.1 [("a", PyValue.str "d")]
      [("a", PyValue.str "p")] "a" (PyValue.str "p") rfl,
   c3_defaults_never_overwrite.2.1 [("a", PyValue.str "d")] [] "a" rfl,
   (c3_defaults_never_overwrite.2.2 PyValue.none "POST" Option.none
      (some [("x", PyValue.str "1")]) (some [("x", PyValue.str "1")])
      (some [("x", PyValue.str "1")]) [("x", PyValue.str "d")] Option.none
      Option.none Option.none
      (reqArgsOf (_build_req_args PyValue.none "POST" Option.none
        (some [("x", PyValue.str "1")]) (some [("x", PyValue.str "1")])
        (some [("x", PyValue.str "1")]) [("x", PyValue.str "d")] Option.none
        Option.none Option.none))
      "x" (PyValue.str "1") rfl (by decide) (by decide)).2.2
      [("x", PyValue.str "1")] rfl rfl⟩

/-- C4 counterexample: when the per-call headers and the client-level
headers both define `X-A`, the mapping handed to the request builder holds
the CLIENT-level value, not the per-call one — `headers.update(self.headers)`
lets the client headers overwrite the per-call headers. -/
theorem c4_counterexample :
    dictLookup (api_call_merged_headers (some [("X-A", "call")])
      [("X-A", "client")]) "X-A" = some "client" ∧
    (some "client" : Option String) ≠ some "call" :=
  ⟨rfl, by decide⟩

/-- C4 (amended): in the mapping `api_call` hands to the request builder,
the CLIENT-level value wins whenever both per-call and client-level headers
define the same key; keys the client headers do not define keep their
per-call value. -/
theorem c4_client_headers_win (headers : Option HDict) (self_headers : HDict)
    (k : String) :
    (∀ v, keysNodup self_headers → dictLookup self_headers k = some v →
      dictLookup (api_call_merged_headers headers self_headers) k = some v) ∧
    (dictLookup self_headers k = Option.none →
      dictLookup (api_call_merged_headers headers self_headers) k =
        dictLookup (headers.getD []) k) := by
  constructor
  · intro v hnd hv
    cases headers with
    | none => exact dictLookup_update_of_some [] self_headers k v hnd hv
    | some hs => exact dictLookup_update_of_some hs self_headers k v hnd hv
  · intro hn
    cases headers with
    | none => exact dictLookup_update_of_none [] self_headers k hn
    | some hs => exact dictLookup_update_of_none hs self_headers k hn

/-- Witness for C4 (amended): the client value wins on the shared key and
the per-call value survives on a key the client does not define. -/
theorem c4_client_headers_win_witness :
    (dictLookup (api_call_merged_headers
      (some [("X-A", "call"), ("Y", "y")]) [("X-A", "client")]) "X-A" =
      some "client") ∧
    (dictLookup (api_call_merged_headers
      (some [("X-A", "call"), ("Y", "y")]) [("X-A", "client")]) "Y" =
      dictLookup ((some [("X-A", "call"), ("Y", "y")] :
        Option HDict).getD []) "Y") :=
  ⟨(c4_client_headers_win (some [("X-A", "call"), ("Y", "y")])
      [("X-A", "client")] "X-A").1 "client" (by simp [keysNodup]) rfl,
   (c4_client_headers_win (some [("X-A", "call"), ("Y", "y")])
      [("X-A", "client")] "Y").2 rfl⟩

/-- C5 counterexample: a `None`-valued entry of the JSON payload is NOT
dropped by `_build_req_args` — the entry survives into the request
arguments — refuting the clause that null-stripping is applied to the JSON
payload. -/
theorem c5_counterexample :
    (reqArgsOf (_build_req_args PyValue.none "POST" Option.none Option.none
      Option.none (some [("a", PyValue.none)]) [] Option.none Option.none
      Option.none)).json = some [("a", PyValue.none)] ∧
    dictLookup [("a", PyValue.none)] "a" = some PyValue.none :=
  ⟨rfl, rfl⟩

/-- C5 (amended): null-stripping (dropping exactly the `None`-valued
entries) is applied to form-data, query-parameters and file attachments
before default-parameter merging; file attachments never receive
default-parameter merging; the JSON payload is NOT null-stripped — it
receives default merging (and token popping) directly. -/
theorem c5_null_stripping :
    (∀ (d : PDict) (k : String),
      dictLookup (nullStrip d) k ≠ some PyValue.none) ∧
    (∀ (d : PDict) (k : String) (v : PyValue), v ≠ PyValue.none →
      dictLookup d k = some v → dictLookup (nullStrip d) k = some v) ∧
    (∀ (token : PyValue) (http_verb : String)
      (files data params json : Option PDict) (D : PDict)
      (headers : Option HDict) (auth : Option PDict) (proxy : Option String)
      (args : ReqArgs),
      _build_req_args token http_verb files data params json D headers auth
          proxy = .ok args →
      (args.data = data.map fun d => _set_default_params (nullStrip d) D) ∧
      (args.files = files.map fun d => nullStrip d) ∧
      (∀ p, params = some p →
        args.params = some (_set_default_params (nullStrip p) D) ∨
        args.params =
          some (dictErase (_set_default_params (nullStrip p) D) "token")) ∧
      (∀ j, json = some j →
        args.json = some (_set_default_params j D) ∨
        args.json = some (dictErase (_set_default_params j D) "token"))) := by
  refine ⟨nullStrip_no_none, nullStrip_lookup_of_some, ?_⟩
  intro token http_verb files data params json D headers auth proxy args hok
  have hcheck := build_req_args_ok_check token http_verb files data params
    json D headers auth proxy args hok
  rw [build_req_args_eq_ok token http_verb files data params json D headers
    auth proxy hcheck] at hok
  injection hok with hok
  subst hok
  refine ⟨rfl, rfl, ?_, ?_⟩
  · intro p hp
    subst hp
    cases hl : dictLookup (_set_default_params (nullStrip p) D) "token" with
    | none => exact Or.inl (by simp [popTokenStep, hl])
    | some w => exact Or.inr (by simp [popTokenStep, hl])
  · intro j hj
    subst hj
    cases hl : dictLookup (_set_default_params j D) "token" with
    | none => exact Or.inl (by simp [popTokenStep, hl])
    | some w => exact Or.inr (by simp [popTokenStep, hl])

/-- Witness for C5 (amended): a concrete run in which the `None` entries of
data, files and params are dropped while the `None` entry of the JSON
payload survives. -/
theorem c5_null_stripping_witness :
    (dictLookup (nullStrip [("a", PyValue.none)]) "a" ≠
      some PyValue.none) ∧
    ((reqArgsOf (_build_req_args PyValue.none "POST"
        (some [("f", PyValue.none), ("g", PyValue.str "2")])
        (some [("a", PyValue.none), ("b", PyValue.str "1")])
        (some [("p", PyValue.none)]) (some [("j", PyValue.none)]) []
        Option.none Option.none Option.none)).data =
      (some [("a", PyValue.none), ("b", PyValue.str "1")] :
        Option PDict).map fun d => _set_default_params (nullStrip d) []) ∧
    ((reqArgsOf (_build_req_args PyValue.none "POST"
        (some [("f", PyValue.none), ("g", PyValue.str "2")])
        (some [("a", PyValue.none), ("b", PyValue.str "1")])
        (some [("p", PyValue.none)]) (some [("j", PyValue.none)]) []
        Option.none Option.none Option.none)).json =
      some (_set_default_params [("j", PyValue.none)] []) ∨
     (reqArgsOf (_build_req_args PyValue.none "POST"
        (some [("f", PyValue.none), ("g", PyValue.str "2")])
        (some [("a", PyValue.none), ("b", PyValue.str "1")])
        (some [("p", PyValue.none)]) (some [("j", PyValue.none)]) []
        Option.none Option.none Option.none)).json =
      some (dictErase (_set_default_params [("j", PyValue.none)] [])
        "token")) :=
  ⟨c5_null_stripping.1 [("a", PyValue.none)] "a",
   (c5_null_stripping.2.2 PyValue.none "POST"
      (some [("f", PyValue.none), ("g", PyValue.str "2")])
      (some [("a", PyValue.none), ("b", PyValue.str "1")])
      (some [("p", PyValue.none)]) (some [("j", PyValue.none)]) []
      Option.none Option.none Option.none
      (reqArgsOf (_build_req_args PyValue.none "POST"
        (some [("f", PyValue.none), ("g", PyValue.str "2")])
        (some [("a", PyValue.none), ("b", PyValue.str "1")])
        (some [("p", PyValue.none)]) (some [("j", PyValue.none)]) []
        Option.none Option.none Option.none)) rfl).1,
   (c5_null_stripping.2.2 PyValue.none "POST"
      (some [("f", PyValue.none), ("g", PyValue.str "2")])
      (some [("a", PyValue.none), ("b", PyValue.str "1")])
      (some [("p", PyValue.none)]) (some [("j", PyValue.none)]) []
      Option.none Option.none Option.none
      (reqArgsOf (_build_req_args PyValue.none "POST"
        (some [("f", PyValue.none), ("g", PyValue.str "2")])
        (some [("a", PyValue.none), ("b", PyValue.str "1")])
        (some [("p", PyValue.none)]) (some [("j", PyValue.none)]) []
        Option.none Option.none Option.none)) rfl).2.2.2
      [("j", PyValue.none)] rfl⟩

/-- The token-extraction step never leaves a `token` key in the dictionary
it returns. -/
theorem popTokenStep_no_token (token : PyValue) (d : Option PDict) (p' : PDict)
    (h : (popTokenStep token d).2 = some p') :
    dictLookup p' "token" = Option.none := by
  cases d with
  | none => simp [popTokenStep] at h
  | some q =>
    cases hl : dictLookup q "token" with
    | none =>
      simp [popTokenStep, hl] at h
      subst h
      exact hl
    | some w =>
      simp [popTokenStep, hl] at h
      subst h
      exact dictLookup_erase_self q "token"

/-- When the effective token is truthy and neither the client headers nor
the request-specific headers define `Authorization`, the final headers carry
the bearer token. -/
theorem get_headers_auth (headers rsh : Option HDict) (v : PyValue)
    (hj hf : Bool) (htr : truthy v = true)
    (hh : ∀ h0, headers = some h0 →
      dictLookup h0 "Authorization" = Option.none)
    (hrsh : ∀ r0, rsh = some r0 →
      dictLookup r0 "Authorization" = Option.none) :
    dictLookup (_get_headers headers v hj hf rsh) "Authorization" =
      some ("Bearer " ++ pyFormat v) := by
  have hCT : ("Content-Type" : String) ≠ "Authorization" := by decide
  have Lfiles : ∀ d : HDict,
      dictLookup d "Authorization" = some ("Bearer " ++ pyFormat v) →
      dictLookup (if hf = true then dictErase d "Content-Type" else d)
        "Authorization" = some ("Bearer " ++ pyFormat v) := by
    intro d hd
    cases hf with
    | false => simpa using hd
    | true =>
      rw [if_pos rfl, dictLookup_erase_ne d "Content-Type" "Authorization" hCT]
      exact hd
  have Ljson : ∀ d : HDict,
      dictLookup d "Authorization" = some ("Bearer " ++ pyFormat v) →
      dictLookup (if hj = true then
          dictUpdate d [("Content-Type", "application/json;charset=utf-8")]
        else d) "Authorization" = some ("Bearer " ++ pyFormat v) := by
    intro d hd
    cases hj with
    | false => simpa using hd
    | true =>
      rw [if_pos rfl]
      show dictLookup
        (dictSet d "Content-Type" "application/json;charset=utf-8")
        "Authorization" = _
      rw [dictLookup_set_ne d "Content-Type" "Authorization" _ hCT]
      exact hd
  have Lrsh : ∀ d : HDict,
      dictLookup d "Authorization" = some ("Bearer " ++ pyFormat v) →
      dictLookup (match rsh with
        | some r => if r ≠ [] then dictUpdate d r else d
        | Option.none => d) "Authorization" =
        some ("Bearer " ++ pyFormat v) := by
    intro d hd
    cases rsh with
    | none => exact hd
    | some r =>
      show dictLookup (if r ≠ [] then dictUpdate d r else d) "Authorization" = _
      by_cases hr : r ≠ []
      · rw [if_pos hr, dictLookup_update_of_none d r "Authorization" (hrsh r rfl)]
        exact hd
      · rw [if_neg hr]
        exact hd
  have Lhs : ∀ d : HDict,
      dictLookup d "Authorization" = some ("Bearer " ++ pyFormat v) →
      dictLookup (dictUpdate d (headers.getD [])) "Authorization" =
        some ("Bearer " ++ pyFormat v) := by
    intro d hd
    have hn : dictLookup (headers.getD []) "Authorization" = Option.none := by
      cases headers with
      | none => rfl
      | some h0 => exact hh h0 rfl
    rw [dictLookup_update_of_none d _ "Authorization" hn]
    exact hd
  have hcore : ∀ d : HDict,
      dictLookup (dictUpdate d [("Authorization", "Bearer " ++ pyFormat v)])
        "Authorization" = some ("Bearer " ++ pyFormat v) := by
    intro d
    show dictLookup (dictSet d "Authorization" ("Bearer " ++ pyFormat v))
      "Authorization" = _
    exact dictLookup_set_self d _ _
  simp only [_get_headers]
  rw [if_pos htr]
  exact Lfiles _ (Ljson _ (Lrsh _ (Lhs _ (hcore _))))

/-- C6 counterexample: an inline `token` whose value is the empty string is
removed from the final query parameters and becomes the effective token, but
the final headers contain NO `Authorization` entry (the header builder only
sets it for a truthy token) — refuting the claim that the final headers
always contain the bearer token. -/
theorem c6_counterexample :
    (reqArgsOf (_build_req_args PyValue.none "GET" Option.none Option.none
      (some [("token", PyValue.str "")]) Option.none [] Option.none
      Option.none Option.none)).params = some [] ∧
    dictLookup (reqArgsOf (_build_req_args PyValue.none "GET" Option.none
      Option.none (some [("token", PyValue.str "")]) Option.none [] Option.none
      Option.none Option.none)).headers "Authorization" = Option.none :=
  ⟨rfl, rfl⟩

/-- C6 (amended): the `token` key is always removed from the final params
and JSON mappings; the extracted value becomes the effective token for the
call (the JSON one, checked after params, winning when both are present);
and PROVIDED the extracted token is truthy and the supplied headers do not
themselves define `Authorization`, the final headers contain
`Authorization: Bearer <that token>`. -/
theorem c6_inline_token :
    (∀ (token : PyValue) (http_verb : String)
      (files data params json : Option PDict) (D : PDict)
      (headers : Option HDict) (auth : Option PDict) (proxy : Option String)
      (args : ReqArgs),
      _build_req_args token http_verb files data params json D headers auth
          proxy = .ok args →
      (∀ p', args.params = some p' → dictLookup p' "token" = Option.none) ∧
      (∀ j', args.json = some j' → dictLookup j' "token" = Option.none)) ∧
    (∀ (token : PyValue) (http_verb : String) (files data : Option PDict)
      (p : PDict) (v : PyValue) (D : PDict) (headers : Option HDict)
      (auth : Option PDict) (proxy : Option String) (args : ReqArgs),
      _build_req_args token http_verb files data (some p) Option.none D
          headers auth proxy = .ok args →
      dictLookup p "token" = some v → truthy v = true →
      (∀ h0, headers = some h0 →
        dictLookup h0 "Authorization" = Option.none) →
      dictLookup args.headers "Authorization" =
        some ("Bearer " ++ pyFormat v)) ∧
    (∀ (token : PyValue) (http_verb : String)
      (files data params : Option PDict) (j : PDict) (w : PyValue) (D : PDict)
      (headers : Option HDict) (auth : Option PDict) (proxy : Option String)
      (args : ReqArgs),
      _build_req_args token http_verb files data params (some j) D headers
          auth proxy = .ok args →
      dictLookup j "token" = some w → truthy w = true →
      (∀ h0, headers = some h0 →
        dictLookup h0 "Authorization" = Option.none) →
      dictLookup args.headers "Authorization" =
        some ("Bearer " ++ pyFormat w)) := by
  refine ⟨?_, ?_, ?_⟩
  · intro token http_verb files data params json D headers auth proxy args hok
    have hcheck := build_req_args_ok_check token http_verb files data params
      json D headers auth proxy args hok
    rw [build_req_args_eq_ok token http_verb files data params json D headers
      auth proxy hcheck] at hok
    injection hok with hok
    subst hok
    exact ⟨fun p' h => popTokenStep_no_token _ _ p' h,
      fun j' h => popTokenStep_no_token _ _ j' h⟩
  · intro token http_verb files data p v D headers auth proxy args hok hp htr
      hh
    have hcheck := build_req_args_ok_check token http_verb files data (some p)
      Option.none D headers auth proxy args hok
    rw [build_req_args_eq_ok token http_verb files data (some p) Option.none D
      headers auth proxy hcheck] at hok
    injection hok with hok
    have hv : v ≠ PyValue.none := by
      intro hveq
      subst hveq
      simp [truthy] at htr
    have hl : dictLookup (_set_default_params (nullStrip p) D) "token" =
        some v :=
      sdp_lookup_of_some D _ "token" v
        (nullStrip_lookup_of_some p "token" v hv hp)
    have hargs : args.headers = _get_headers headers
        (popTokenStep token
          (some (_set_default_params (nullStrip p) D))).1
        false files.isSome headers := by
      rw [← hok]
      rfl
    have hX : (popTokenStep token
        (some (_set_default_params (nullStrip p) D))).1 = v := by
      simp [popTokenStep, hl]
    rw [hargs, hX]
    exact get_headers_auth headers headers v false files.isSome htr hh hh
  · intro token http_verb files data params j w D headers auth proxy args hok
      hw htr hh
    have hcheck := build_req_args_ok_check token http_verb files data params
      (some j) D headers auth proxy args hok
    rw [build_req_args_eq_ok token http_verb files data params (some j) D
      headers auth proxy hcheck] at hok
    injection hok with hok
    have hl : dictLookup (_set_default_params j D) "token" = some w :=
      sdp_lookup_of_some D j "token" w hw
    have hargs : args.headers = _get_headers headers
        (popTokenStep
          (popTokenStep token
            (params.map fun d => _set_default_params (nullStrip d) D)).1
          (some (_set_default_params j D))).1
        true files.isSome headers := by
      rw [← hok]
      rfl
    have hX : (popTokenStep
        (popTokenStep token
          (params.map fun d => _set_default_params (nullStrip d) D)).1
        (some (_set_default_params j D))).1 = w := by
      simp [popTokenStep, hl]
    rw [hargs, hX]
    exact get_headers_auth headers headers w true files.isSome htr hh hh

/-- Witness for C6 (amended): token keys are gone from the final payloads, a
params-supplied token reaches the Authorization header, and a JSON-supplied
token wins over a params-supplied one. -/
theorem c6_inline_token_witness :
    (dictLookup [("q", PyValue.str "1")] "token" = Option.none) ∧
    (dictLookup (reqArgsOf (_build_req_args PyValue.none "GET" Option.none
      Option.none (some [("token", PyValue.str "T")]) Option.none []
      Option.none Option.none Option.none)).headers "Authorization" =
      some ("Bearer " ++ pyFormat (PyValue.str "T"))) ∧
    (dictLookup (reqArgsOf (_build_req_args PyValue.none "POST" Option.none
      Option.none (some [("token", PyValue.str "T")])
      (some [("token", PyValue.str "J")]) [] Option.none Option.none
      Option.none)).headers "Authorization" =
      some ("Bearer " ++ pyFormat (PyValue.str "J"))) :=
  ⟨(c6_inline_token.1 (PyValue.str "cli") "POST" Option.none Option.none
      (some [("token", PyValue.str "T"), ("q", PyValue.str "1")])
      (some [("token", PyValue.str "J")]) [] Option.none Option.none
      Option.none
      (reqArgsOf (_build_req_args (PyValue.str "cli") "POST" Option.none
        Option.none (some [("token", PyValue.str "T"), ("q", PyValue.str "1")])
        (some [("token", PyValue.str "J")]) [] Option.none Option.none
        Option.none)) rfl).1 [("q", PyValue.str "1")] rfl,
   c6_inline_token.2.1 PyValue.none "GET" Option.none Option.none
      [("token", PyValue.str "T")] (PyValue.str "T") [] Option.none
      Option.none Option.none
      (reqArgsOf (_build_req_args PyValue.none "GET" Option.none Option.none
        (some [("token", PyValue.str "T")]) Option.none [] Option.none
        Option.none Option.none)) rfl rfl (by decide)
      (fun h0 h => Option.noConfusion h),
   c6_inline_token.2.2 PyValue.none "POST" Option.none Option.none
      (some [("token", PyValue.str "T")]) [("token", PyValue.str "J")]
      (PyValue.str "J") [] Option.none Option.none Option.none
      (reqArgsOf (_build_req_args PyValue.none "POST" Option.none Option.none
        (some [("token", PyValue.str "T")])
        (some [("token", PyValue.str "J")]) [] Option.none Option.none
        Option.none)) rfl rfl (by decide)
      (fun h0 h => Option.noConfusion h)⟩

/-- C7 counterexample: with a JSON body, no per-call Content-Type override,
but file attachments also present, the final headers contain NO Content-Type
at all — refuting the claim for every header-building input with a JSON
body. -/
theorem c7_counterexample :
    dictLookup (_get_headers Option.none PyValue.none true true Option.none)
      "Content-Type" = Option.none :=
  rfl

/-- C7 (amended): for every header-building input with a JSON body and NO
file attachments, the final headers contain
`Content-Type: application/json;charset=utf-8` — the JSON forcing is applied
after, and overrides, the base default, client static headers and per-call
overrides for that key (no override hypothesis is even needed). -/
theorem c7_json_content_type (headers rsh : Option HDict) (token : PyValue) :
    dictLookup (_get_headers headers token true false rsh) "Content-Type" =
      some "application/json;charset=utf-8" := by
  simp only [_get_headers]
  exact dictLookup_set_self _ "Content-Type" "application/json;charset=utf-8"

/-- C8: whenever file attachments are present, the final headers returned by
`_get_headers` contain no `Content-Type` key, regardless of every other
input. -/
theorem c8_files_remove_content_type (headers rsh : Option HDict)
    (token : PyValue) (has_json : Bool) :
    dictLookup (_get_headers headers token has_json true rsh) "Content-Type" =
      Option.none := by
  simp only [_get_headers]
  exact dictLookup_erase_self _ "Content-Type"

/-- C9: for every raw response whose body is text failing to parse as JSON,
the decode step fails with an HttpBinApiError whose message contains the
body preview, and that preview is newline-collapsed (no newline or carriage
return characters) and truncated to at most 100 characters, with a trailing
ellipsis exactly when truncation occurred. -/
theorem c9_nonjson_body_error (parse : String → Option PDict)
    (resp : RawResp) (s : String) (hbody : resp.body = RawBody.text s)
    (hparse : parse s = Option.none) :
    _urllib_api_call_decode parse resp =
      .error (mkHttpBinApiError (_build_unexpected_body_error_message s)
        resp) ∧
    (mkHttpBinApiError (_build_unexpected_body_error_message s) resp).msg =
      ("Received a response in a non-JSON format: " ++
        String.mk (bodyForLogging s)) ++
      ("\nThe server responded with: " ++ rawRespRepr resp) ∧
    (bodyForLogging s).all (fun c => !(c == '\n') && !(c == '\r')) = true ∧
    ((bodyForLogging s).length ≤ 100 ∨
      ((bodyForLogging s).length = 103 ∧
        (bodyForLogging s).drop 100 = "...".toList)) := by
  refine ⟨?_, rfl, ?_, bodyForLogging_length s⟩
  · simp only [_urllib_api_call_decode, hbody, hparse]
  · rw [List.all_eq_true]
    intro c hc
    have hcc := mem_bodyForLogging s c hc
    simp [hcc.1, hcc.2]

/-- Witness for C9: a concrete two-line body that fails to parse. -/
theorem c9_nonjson_body_error_witness :
    _urllib_api_call_decode (fun _ => Option.none)
      ⟨500, [], RawBody.text "ab\ncd"⟩ =
      .error (mkHttpBinApiError
        (_build_unexpected_body_error_message "ab\ncd")
        ⟨500, [], RawBody.text "ab\ncd"⟩) ∧
    (mkHttpBinApiError (_build_unexpected_body_error_message "ab\ncd")
      ⟨500, [], RawBody.text "ab\ncd"⟩).msg =
      ("Received a response in a non-JSON format: " ++
        String.mk (bodyForLogging "ab\ncd")) ++
      ("\nThe server responded with: " ++
        rawRespRepr ⟨500, [], RawBody.text "ab\ncd"⟩) ∧
    (bodyForLogging "ab\ncd").all
      (fun c => !(c == '\n') && !(c == '\r')) = true ∧
    ((bodyForLogging "ab\ncd").length ≤ 100 ∨
      ((bodyForLogging "ab\ncd").length = 103 ∧
        (bodyForLogging "ab\ncd").drop 100 = "...".toList)) :=
  c9_nonjson_body_error (fun _ => Option.none)
    ⟨500, [], RawBody.text "ab\ncd"⟩ "ab\ncd" rfl rfl

/-- The in-place token pop leaves every other heap cell unchanged. -/
theorem popH_get_ne (hp : Heap) (token : PyValue) (r x : Nat) (hne : r ≠ x) :
    (popTokenStepHeap hp token (some r)).1.get x = hp.get x := by
  cases hl : dictLookup (hp.get r) "token" with
  | none => simp [popTokenStepHeap, hl]
  | some v => simp [popTokenStepHeap, hl, Heap.get_heapSet_ne hp r x _ hne]

/-- The in-place token pop leaves the popped cell holding the dict minus its
`token` key. -/
theorem popH_get_self (hp : Heap) (token : PyValue) (r : Nat)
    (hr : r < hp.cells.length) :
    (popTokenStepHeap hp token (some r)).1.get r = popTokenDict (hp.get r) := by
  cases hl : dictLookup (hp.get r) "token" with
  | none => simp [popTokenStepHeap, hl, popTokenDict]
  | some v =>
    simp [popTokenStepHeap, hl, popTokenDict,
      Heap.get_heapSet_self hp r _ hr]

/-- The in-place token pop does not change the number of heap cells. -/
theorem popH_length (hp : Heap) (token : PyValue) (r : Nat) :
    (popTokenStepHeap hp token (some r)).1.cells.length = hp.cells.length := by
  cases hl : dictLookup (hp.get r) "token" with
  | none => simp [popTokenStepHeap, hl]
  | some v => simp [popTokenStepHeap, hl, Heap.length_heapSet]

/-- C10: `_build_req_args` replaces the caller's data, files and params
dicts by freshly allocated filtered copies — the caller's cells are left
unchanged — while the JSON payload dict is mutated in place: the request
arguments keep the caller's own json reference, whose cell now holds the
default-merged, token-popped contents. -/
theorem c10_req_args_aliasing (h : Heap) (tok : PyValue) (rd rf rp rj : Nat)
    (D : PDict) (hrd : rd < h.cells.length) (hrf : rf < h.cells.length)
    (hrp : rp < h.cells.length) (hrj : rj < h.cells.length)
    (hjd : rj ≠ rd) (hjf : rj ≠ rf) (hjp : rj ≠ rp) :
    exceptOk (_build_req_args_heap h tok "POST" (some rf) (some rd) (some rp)
      (some rj) D) = true ∧
    (argsOf (_build_req_args_heap h tok "POST" (some rf) (some rd) (some rp)
      (some rj) D)).data = some h.cells.length ∧
    (argsOf (_build_req_args_heap h tok "POST" (some rf) (some rd) (some rp)
      (some rj) D)).files = some (h.cells.length + 1) ∧
    (argsOf (_build_req_args_heap h tok "POST" (some rf) (some rd) (some rp)
      (some rj) D)).params = some (h.cells.length + 2) ∧
    (argsOf (_build_req_args_heap h tok "POST" (some rf) (some rd) (some rp)
      (some rj) D)).json = some rj ∧
    (heapOf (_build_req_args_heap h tok "POST" (some rf) (some rd) (some rp)
      (some rj) D)).get rd = h.get rd ∧
    (heapOf (_build_req_args_heap h tok "POST" (some rf) (some rd) (some rp)
      (some rj) D)).get rf = h.get rf ∧
    (heapOf (_build_req_args_heap h tok "POST" (some rf) (some rd) (some rp)
      (some rj) D)).get rp = h.get rp ∧
    (heapOf (_build_req_args_heap h tok "POST" (some rf) (some rd) (some rp)
      (some rj) D)).get h.cells.length =
      _set_default_params (nullStrip (h.get rd)) D ∧
    (heapOf (_build_req_args_heap h tok "POST" (some rf) (some rd) (some rp)
      (some rj) D)).get (h.cells.length + 1) = nullStrip (h.get rf) ∧
    (heapOf (_build_req_args_heap h tok "POST" (some rf) (some rd) (some rp)
      (some rj) D)).get (h.cells.length + 2) =
      popTokenDict (_set_default_params (nullStrip (h.get rp)) D) ∧
    (heapOf (_build_req_args_heap h tok "POST" (some rf) (some rd) (some rp)
      (some rj) D)).get rj =
      popTokenDict (_set_default_params (h.get rj) D) := by
  set n := h.cells.length with hn
  set A := _set_default_params (nullStrip (h.get rd)) D with hA
  set h1 := (h.alloc A).1 with hh1
  set B := nullStrip (h1.get rf) with hB
  set h2 := (h1.alloc B).1 with hh2
  set C := _set_default_params (nullStrip (h2.get rp)) D with hC
  set h3 := (h2.alloc C).1 with hh3
  set J := _set_default_params (h3.get rj) D with hJ
  set h4 := h3.heapSet rj J with hh4
  set q1 := popTokenStepHeap h4 tok (some h2.cells.length) with hq1
  set q2 := popTokenStepHeap q1.1 q1.2 (some rj) with hq2
  have hlen1 : h1.cells.length = n + 1 := Heap.length_alloc h A
  have hlen2 : h2.cells.length = n + 2 := by
    rw [hh2, Heap.length_alloc, hlen1]
  have hlen3 : h3.cells.length = n + 3 := by
    rw [hh3, Heap.length_alloc, hlen2]
  have hlen4 : h4.cells.length = n + 3 := by
    rw [hh4, Heap.length_heapSet, hlen3]
  have g1rf : h1.get rf = h.get rf := Heap.get_alloc_lt h A rf hrf
  have g1rp : h1.get rp = h.get rp := Heap.get_alloc_lt h A rp hrp
  have g1rj : h1.get rj = h.get rj := Heap.get_alloc_lt h A rj hrj
  have g1rd : h1.get rd = h.get rd := Heap.get_alloc_lt h A rd hrd
  have g2rp : h2.get rp = h.get rp := by
    rw [hh2, Heap.get_alloc_lt h1 B rp (by rw [hlen1]; omega), g1rp]
  have g2rj : h2.get rj = h.get rj := by
    rw [hh2, Heap.get_alloc_lt h1 B rj (by rw [hlen1]; omega), g1rj]
  have g2rd : h2.get rd = h.get rd := by
    rw [hh2, Heap.get_alloc_lt h1 B rd (by rw [hlen1]; omega), g1rd]
  have g2rf : h2.get rf = h.get rf := by
    rw [hh2, Heap.get_alloc_lt h1 B rf (by rw [hlen1]; omega), g1rf]
  have g3rj : h3.get rj = h.get rj := by
    rw [hh3, Heap.get_alloc_lt h2 C rj (by rw [hlen2]; omega), g2rj]
  have g3rd : h3.get rd = h.get rd := by
    rw [hh3, Heap.get_alloc_lt h2 C rd (by rw [hlen2]; omega), g2rd]
  have g3rf : h3.get rf = h.get rf := by
    rw [hh3, Heap.get_alloc_lt h2 C rf (by rw [hlen2]; omega), g2rf]
  have g3rp : h3.get rp = h.get rp := by
    rw [hh3, Heap.get_alloc_lt h2 C rp (by rw [hlen2]; omega), g2rp]
  have g3n : h3.get n = A := by
    rw [hh3, Heap.get_alloc_lt h2 C n (by rw [hlen2]; omega), hh2,
      Heap.get_alloc_lt h1 B n (by rw [hlen1]; omega), hh1]
    exact Heap.get_alloc_self h A
  have g3n1 : h3.get (n + 1) = B := by
    rw [hh3, Heap.get_alloc_lt h2 C (n + 1) (by rw [hlen2]; omega), hh2,
      ← hlen1]
    exact Heap.get_alloc_self h1 B
  have g3n2 : h3.get (n + 2) = C := by
    rw [hh3, ← hlen2]
    exact Heap.get_alloc_self h2 C
  have g4rd : h4.get rd = h.get rd := by
    rw [hh4, Heap.get_heapSet_ne h3 rj rd J hjd, g3rd]
  have g4rf : h4.get rf = h.get rf := by
    rw [hh4, Heap.get_heapSet_ne h3 rj rf J hjf, g3rf]
  have g4rp : h4.get rp = h.get rp := by
    rw [hh4, Heap.get_heapSet_ne h3 rj rp J hjp, g3rp]
  have g4n : h4.get n = A := by
    rw [hh4, Heap.get_heapSet_ne h3 rj n J (by omega), g3n]
  have g4n1 : h4.get (n + 1) = B := by
    rw [hh4, Heap.get_heapSet_ne h3 rj (n + 1) J (by omega), g3n1]
  have g4n2 : h4.get (n + 2) = C := by
    rw [hh4, Heap.get_heapSet_ne h3 rj (n + 2) J (by omega), g3n2]
  have g4rj : h4.get rj = J := by
    rw [hh4]
    exact Heap.get_heapSet_self h3 rj J (by rw [hlen3]; omega)
  have gq1 : ∀ x, x ≠ h2.cells.length → q1.1.get x = h4.get x := by
    intro x hx
    rw [hq1]
    exact popH_get_ne h4 tok h2.cells.length x (fun hh => hx hh.symm)
  have gq1len : q1.1.cells.length = n + 3 := by
    rw [hq1, popH_length, hlen4]
  have gq2 : ∀ x, x ≠ rj → q2.1.get x = q1.1.get x := by
    intro x hx
    rw [hq2]
    exact popH_get_ne q1.1 q1.2 rj x (fun hh => hx hh.symm)
  refine ⟨rfl, rfl, ?_, ?_, rfl, ?_, ?_, ?_, ?_, ?_, ?_, ?_⟩
  · show some h1.cells.length = some (n + 1)
    rw [hlen1]
  · show some h2.cells.length = some (n + 2)
    rw [hlen2]
  · show q2.1.get rd = h.get rd
    rw [gq2 rd (fun hh => hjd hh.symm),
      gq1 rd (by rw [hlen2]; omega), g4rd]
  · show q2.1.get rf = h.get rf
    rw [gq2 rf (fun hh => hjf hh.symm),
      gq1 rf (by rw [hlen2]; omega), g4rf]
  · show q2.1.get rp = h.get rp
    rw [gq2 rp (fun hh => hjp hh.symm),
      gq1 rp (by rw [hlen2]; omega), g4rp]
  · show q2.1.get n = A
    rw [gq2 n (by omega), gq1 n (by rw [hlen2]; omega), g4n]
  · show q2.1.get (n + 1) = nullStrip (h.get rf)
    rw [gq2 (n + 1) (by omega), gq1 (n + 1) (by rw [hlen2]; omega), g4n1,
      hB, g1rf]
  · show q2.1.get (n + 2) =
      popTokenDict (_set_default_params (nullStrip (h.get rp)) D)
    rw [gq2 (n + 2) (by omega), ← hlen2, hq1]
    rw [popH_get_self h4 tok h2.cells.length (by rw [hlen4, hlen2]; omega)]
    rw [hlen2, g4n2, hC, g2rp]
  · show q2.1.get rj = popTokenDict (_set_default_params (h.get rj) D)
    rw [hq2]
    rw [popH_get_self q1.1 q1.2 rj (by rw [gq1len]; omega)]
    rw [gq1 rj (by rw [hlen2]; omega), g4rj, hJ, g3rj]

/-- Witness for C10: on a concrete heap, the caller's data cell is left
unchanged, the request arguments keep the caller's json reference, and that
json cell now holds the default-merged, token-popped contents. -/
theorem c10_req_args_aliasing_witness :
    (0 < c10Heap.cells.length ∧ 1 < c10Heap.cells.length ∧
     2 < c10Heap.cells.length ∧ 3 < c10Heap.cells.length ∧
     (3 : Nat) ≠ 0 ∧ (3 : Nat) ≠ 1 ∧ (3 : Nat) ≠ 2) ∧
    ((heapOf (_build_req_args_heap c10Heap PyValue.none "POST" (some 1)
        (some 0) (some 2) (some 3) [("d", PyValue.str "D")])).get 0 =
      c10Heap.get 0 ∧
     (argsOf (_build_req_args_heap c10Heap PyValue.none "POST" (some 1)
        (some 0) (some 2) (some 3) [("d", PyValue.str "D")])).json =
      some 3 ∧
     (heapOf (_build_req_args_heap c10Heap PyValue.none "POST" (some 1)
        (some 0) (some 2) (some 3) [("d", PyValue.str "D")])).get 3 =
      popTokenDict (_set_default_params (c10Heap.get 3)
        [("d", PyValue.str "D")])) :=
  ⟨⟨by decide, by decide, by decide, by decide, by decide, by decide,
    by decide⟩,
   (c10_req_args_aliasing c10Heap PyValue.none 0 1 2 3
      [("d", PyValue.str "D")] (by decide) (by decide) (by decide) (by decide)
      (by decide) (by decide) (by decide)).2.2.2.2.2.1,
   (c10_req_args_aliasing c10Heap PyValue.none 0 1 2 3
      [("d", PyValue.str "D")] (by decide) (by decide) (by decide) (by decide)
      (by decide) (by decide) (by decide)).2.2.2.2.1,
   (c10_req_args_aliasing c10Heap PyValue.none 0 1 2 3
      [("d", PyValue.str "D")] (by decide) (by decide) (by decide) (by decide)
      (by decide) (by decide) (by decide)).2.2.2.2.2.2.2.2.2.2.2⟩

end HttpbinSdk
